/-
Verification of the compute metric-producer core (ceilometer/compute/pollsters.py).

The Python source is shallowly embedded below:
  * dictionaries become association lists (`alLookup` / `alInsert` mirror
    `d[k]` / `d[k] = v` with insertion-order semantics of Python dicts);
  * generator functions (`get_counters`) are embedded as the result of fully
    consuming the generator: the list of samples yielded before the generator
    finished, paired with the exception (if any) that escaped it;
  * Python exceptions become an explicit `PyErr` value (`Except` style);
  * Python numbers become `Int` (machine counters) and `Rat` (float results);
  * wall-clock moments (`datetime.datetime.now()`) become an `Int` count of
    microseconds, passed in explicitly as `now`.
-/
import Mathlib

set_option autoImplicit false

/-! ### Generic association-list dictionary (model of a Python dict) -/

/-- Lookup of a key in an association list (`d[k]` / `k in d`). -/
def alLookup {α β : Type} [DecidableEq α] : List (α × β) → α → Option β
  | [], _ => none
  | kv :: rest, k => if kv.1 = k then some kv.2 else alLookup rest k

/-- Key-membership test (`k in d`). -/
def alMem {α β : Type} [DecidableEq α] (l : List (α × β)) (k : α) : Bool :=
  (alLookup l k).isSome

/-- Assignment `d[k] = v`: replaces the value at an existing key in place, or
appends the new pair at the end (Python dicts preserve insertion order). -/
def alInsert {α β : Type} [DecidableEq α] : List (α × β) → α → β → List (α × β)
  | [], k, v => [(k, v)]
  | kv :: rest, k, v => if kv.1 = k then (k, v) :: rest else kv :: alInsert rest k v

/-! ### Metadata values -/

/-- A Python value stored in a metadata dictionary: a string, a number, a
nested dictionary, a list, or `None`. -/
inductive MetaVal : Type where
  | str (s : String)
  | num (n : Int)
  | map (m : List (String × MetaVal))
  | list (l : List MetaVal)
  | none_

/-- Equality of embedded call results (`Except`) is decidable. -/
instance exceptDecEq {ε α : Type} [DecidableEq ε] [DecidableEq α] :
    DecidableEq (Except ε α) := fun
  | .ok a, .ok b =>
    match decEq a b with
    | isTrue h => isTrue (h ▸ rfl)
    | isFalse h => isFalse (fun hh => h (Except.ok.inj hh))
  | .error e, .error f =>
    match decEq e f with
    | isTrue h => isTrue (h ▸ rfl)
    | isFalse h => isFalse (fun hh => h (Except.error.inj hh))
  | .ok _, .error _ => isFalse Except.noConfusion
  | .error _, .ok _ => isFalse Except.noConfusion

/-- Configuration options registered by the module (`OPTS`):
`reserved_metadata_namespace` (default `['metering.']`) and
`reserved_metadata_length` (default 256). -/
structure Conf : Type where
  reserved_metadata_namespace : List String
  reserved_metadata_length : Nat

/-- The default values of the two configuration options. -/
def defaultConf : Conf := ⟨["metering."], 256⟩

/-- The `INSTANCE_PROPERTIES` list of attribute names copied into metadata. -/
def INSTANCE_PROPERTIES : List String :=
  ["reservation_id",
   "architecture",
   "OS-EXT-AZ:availability_zone",
   "kernel_id",
   "os_type",
   "ramdisk_id",
   "disk_gb",
   "ephemeral_gb",
   "memory_mb",
   "root_gb",
   "vcpus"]

/-- An instance's flavor dictionary (`instance.flavor`), with its `id` and
`name` entries. -/
structure Flavor : Type where
  id : String
  name : String

/-- An instance's image dictionary (`instance.image`), with its `id` and the
`href`s of its `links` entries. -/
structure Image : Type where
  id : String
  links : List String

/-- The instance descriptor consumed by the producers.  `instance_name`
models the optional `OS-EXT-SRV-ATTR:instance_name` attribute (`getattr`
with a default), `props` models the attributes read through `getattr` for
`INSTANCE_PROPERTIES`, and `metadata` is `instance.metadata`. -/
structure Instance : Type where
  id : String
  user_id : String
  tenant_id : String
  name : String
  hostId : String
  instance_name : Option String
  flavor : Option Flavor
  image : Option Image
  props : List (String × MetaVal)
  metadata : List (String × MetaVal)

/-- Shortcut to get the instance name:
`getattr(instance, 'OS-EXT-SRV-ATTR:instance_name', None)`. -/
def _instance_name (inst : Instance) : Option String :=
  inst.instance_name

/-! ### Reserved user metadata (`_add_reserved_user_metadata`) -/

/-- Python's `s.startswith(pre)` (an executable model of the library
routine: prefix test on the character list). -/
def py_startswith (s pre : String) : Bool :=
  pre.data.isPrefixOf s.data

/-- Python's `s.replace('.', '_')`: the pattern is a single character, so the
replacement is a character-by-character map. -/
def py_replace_dots (s : String) : String :=
  ⟨s.data.map (fun c => if c = '.' then '_' else c)⟩

/-- The transformed name of a reserved metadata key:
`k[len(ns):].replace('.', '_')`. -/
def transform_key (ns k : String) : String :=
  py_replace_dots (k.drop ns.length)

/-- Value stored for a reserved key: `v[:limit] if isinstance(v, basestring)
else v`. -/
def truncate_value (limit : Nat) : MetaVal → MetaVal
  | .str s => .str (s.take limit)
  | v => v

/-- The dict comprehension inside `_add_reserved_user_metadata` for one
reserved namespace `ns`: the transformed entries of `inst_md` whose key
starts with `ns` and whose transformed name is not already a key of the
top-level `md`. -/
def reserved_prefix_md (limit : Nat) (ns : String)
    (inst_md md : List (String × MetaVal)) : List (String × MetaVal) :=
  (inst_md.filter
      (fun kv => py_startswith kv.1 ns && !(alMem md (transform_key ns kv.1)))).foldl
    (fun acc kv => alInsert acc (transform_key ns kv.1) (truncate_value limit kv.2))
    []

/-- The `user_metadata` dictionary accumulated across all configured reserved
namespaces (`user_metadata.update(md)` in the loop). -/
def reserved_user_metadata (limit : Nat) (nss : List String)
    (inst_md md : List (String × MetaVal)) : List (String × MetaVal) :=
  nss.foldl
    (fun um ns =>
      (reserved_prefix_md limit ns inst_md md).foldl
        (fun acc kv => alInsert acc kv.1 kv.2) um)
    []

/-- `_add_reserved_user_metadata(instance, metadata)`: attach the reserved
user metadata (if any) under the `'user_metadata'` key of `metadata`. -/
def _add_reserved_user_metadata (conf : Conf) (inst : Instance)
    (metadata : List (String × MetaVal)) : List (String × MetaVal) :=
  let um := reserved_user_metadata conf.reserved_metadata_length
    conf.reserved_metadata_namespace inst.metadata metadata
  if um.isEmpty then metadata else alInsert metadata "user_metadata" (.map um)

/-- The flavor dictionary as a metadata value. -/
def flavor_val : Option Flavor → MetaVal
  | some f => .map [("id", .str f.id), ("name", .str f.name)]
  | none => .none_

/-- The image dictionary as a metadata value. -/
def image_val : Option Image → MetaVal
  | some im => .map [("id", .str im.id), ("links", .list (im.links.map .str))]
  | none => .none_

/-- `_get_metadata_from_object(instance)`: the metadata dictionary built for
every sample of the instance. -/
def _get_metadata_from_object (conf : Conf) (inst : Instance) :
    List (String × MetaVal) :=
  let metadata : List (String × MetaVal) :=
    [("display_name", .str inst.name),
     ("name", .str (inst.instance_name.getD "")),
     ("instance_type",
       match inst.flavor with | some f => .str f.id | none => .none_),
     ("host", .str inst.hostId),
     ("flavor", flavor_val inst.flavor),
     ("image", image_val inst.image),
     ("image_ref",
       match inst.image with | some im => .str im.id | none => .none_)]
  let metadata := metadata ++
    [("image_ref_url",
       match inst.image with
       | some im => match im.links with
         | [] => .none_
         | href :: _ => .str href
       | none => .none_)]
  let metadata := metadata ++
    INSTANCE_PROPERTIES.map (fun nm => (nm, (alLookup inst.props nm).getD (.str "")))
  _add_reserved_user_metadata conf inst metadata

/-! ### Samples (`counter.Counter`) -/

/-- The sample kind (`counter.TYPE_GAUGE` / `TYPE_CUMULATIVE` / `TYPE_DELTA`;
the `counter` module is outside this file's source, the three constants are
taken from the spec's Sample data model). -/
inductive CounterType : Type where
  | gauge
  | cumulative
  | delta
deriving DecidableEq

/-- The `counter.Counter` record.  `timestamp` models `timeutils.isotime()`
as the integer clock value at collection time. -/
structure Counter : Type where
  name : String
  type : CounterType
  unit : String
  volume : ℚ
  user_id : String
  project_id : String
  resource_id : String
  timestamp : Int
  resource_metadata : List (String × MetaVal)

/-- `make_counter_from_instance(instance, name, type, unit, volume)`. -/
def make_counter_from_instance (conf : Conf) (inst : Instance) (name : String)
    (type : CounterType) (unit : String) (volume : ℚ) (now : Int) : Counter :=
  { name := name
    type := type
    unit := unit
    volume := volume
    user_id := inst.user_id
    project_id := inst.tenant_id
    resource_id := inst.id
    timestamp := now
    resource_metadata := _get_metadata_from_object conf inst }

/-! ### Inspector interface and errors -/

/-- A Python exception escaping into the producer code: a `ZeroDivisionError`,
a `TypeError`, or an error raised by the inspector. -/
inductive PyErr : Type where
  | zeroDivision
  | typeError (msg : String)
  | inspection (msg : String)
deriving DecidableEq

/-- CPU facts returned by `inspector.inspect_cpus` (interface modelled from
the spec's inspector capability: core count and cumulative CPU time in
nanoseconds; the source reads them as `cpu_info.number` / `cpu_info.time`). -/
structure CPUStats : Type where
  number : Int
  time : Int
deriving DecidableEq

/-- A disk descriptor from `inspector.inspect_disks` (only its `device` name
is used, for logging). -/
structure Disk : Type where
  device : String
deriving DecidableEq

/-- Per-disk counters from `inspector.inspect_disks` (interface modelled from
the spec's inspector capability). -/
structure DiskStats : Type where
  read_bytes : Int
  read_requests : Int
  write_bytes : Int
  write_requests : Int
  errors : Int
deriving DecidableEq

/-- Modelled from the spec: the vNIC descriptor returned by
`inspector.inspect_vnics` (spec section 6: `{name, optional stable_ref}`);
the stable reference is the `fref` attribute read by the source. -/
structure Vnic : Type where
  name : String
  fref : Option String
deriving DecidableEq

/-- Per-vNIC counters from `inspector.inspect_vnics` (interface modelled from
the spec's inspector capability). -/
structure VnicStats : Type where
  rx_bytes : Int
  rx_packets : Int
  tx_bytes : Int
  tx_packets : Int
deriving DecidableEq

/-- The hypervisor inspector (`manager.inspector`): each call either returns
its facts or raises. -/
structure Inspector : Type where
  inspect_cpus : Option String → Except PyErr CPUStats
  inspect_disks : Option String → Except PyErr (List (Disk × DiskStats))
  inspect_vnics : Option String → Except PyErr (List (Vnic × VnicStats))

/-- The observable result of fully consuming one `get_counters` generator:
the samples it yielded before finishing, and the exception (if any) that
escaped out of the generator to its consumer. -/
abbrev PollResult : Type := List Counter × Option PyErr

/-! ### Instance-presence producer (`InstancePollster`) -/

/-- `InstancePollster.get_counters`: yields the `instance` sample, then the
flavor-qualified `instance:<flavor>` sample.  If `instance.flavor` is `None`,
the subscription `instance.flavor['name']` raises a `TypeError` after the
first sample was already yielded (there is no exception handler here). -/
def instance_get_counters (conf : Conf) (inst : Instance) (now : Int) :
    PollResult :=
  let first := make_counter_from_instance conf inst "instance" .gauge "instance" 1 now
  match inst.flavor with
  | none => ([first], some (.typeError "NoneType object is unsubscriptable"))
  | some f =>
      ([first,
        make_counter_from_instance conf inst ("instance:" ++ f.name) .gauge
          "instance" 1 now],
       none)

/-! ### Disk-I/O producer (`DiskIOPollster`) -/

/-- The per-instance aggregate cached under the `diskio` namespace. -/
structure DiskIOData : Type where
  r_bytes : Int
  r_requests : Int
  w_bytes : Int
  w_requests : Int
deriving DecidableEq

/-- The `diskio` cache namespace key (`CACHE_KEY_DISK`). -/
def CACHE_KEY_DISK : String := "diskio"

/-- The cycle cache: a dictionary from namespace key to a per-instance-name
dictionary of disk aggregates (only the Disk-I/O producer stores into it). -/
abbrev Cache : Type := List (String × List (Option String × DiskIOData))

/-- The summation loop inside `_populate_cache`: total read/write bytes and
requests across the enumerated disks. -/
def disk_sum (disks : List (Disk × DiskStats)) : DiskIOData :=
  disks.foldl
    (fun acc di =>
      { r_bytes := acc.r_bytes + di.2.read_bytes
        r_requests := acc.r_requests + di.2.read_requests
        w_bytes := acc.w_bytes + di.2.write_bytes
        w_requests := acc.w_requests + di.2.write_requests })
    ⟨0, 0, 0, 0⟩

/-- `DiskIOPollster._populate_cache`: `cache.setdefault('diskio', {})`, then
either return the cached aggregate for `instance_name`, or enumerate the
disks through the inspector, sum their counters, store and return the sum.
The result carries the updated cache and the number of inspector calls made
(0 or 1); an inspector exception propagates (`Except.error`), in which case
nothing was stored for `instance_name`. -/
def _populate_cache (inspector : Inspector) (cache : Cache)
    (instance_name : Option String) :
    Except PyErr DiskIOData × Cache × Nat :=
  let i_cache := (alLookup cache CACHE_KEY_DISK).getD []
  match alLookup i_cache instance_name with
  | some d => (.ok d, alInsert cache CACHE_KEY_DISK i_cache, 0)
  | none =>
    match inspector.inspect_disks instance_name with
    | .error e => (.error e, alInsert cache CACHE_KEY_DISK i_cache, 1)
    | .ok disks =>
        let d := disk_sum disks
        let i_cache' := alInsert i_cache instance_name d
        (.ok d, alInsert cache CACHE_KEY_DISK i_cache', 1)

/-- The four samples yielded by `DiskIOPollster.get_counters` from a cached
aggregate. -/
def diskio_counter_list (conf : Conf) (inst : Instance) (c_data : DiskIOData)
    (now : Int) : List Counter :=
  [make_counter_from_instance conf inst "disk.read.requests" .cumulative
     "request" (c_data.r_requests : ℚ) now,
   make_counter_from_instance conf inst "disk.read.bytes" .cumulative
     "B" (c_data.r_bytes : ℚ) now,
   make_counter_from_instance conf inst "disk.write.requests" .cumulative
     "request" (c_data.w_requests : ℚ) now,
   make_counter_from_instance conf inst "disk.write.bytes" .cumulative
     "B" (c_data.w_bytes : ℚ) now]

/-- `DiskIOPollster.get_counters`.  Note that `_populate_cache` is invoked
before the `try:` block, so an inspector exception escapes the generator;
the `except` clause only protects the four `yield` statements.  The third
component counts the inspector calls made. -/
def diskio_get_counters (conf : Conf) (inspector : Inspector) (cache : Cache)
    (inst : Instance) (now : Int) : PollResult × Cache × Nat :=
  let instance_name := _instance_name inst
  match _populate_cache inspector cache instance_name with
  | (.error e, cache', n) => (([], some e), cache', n)
  | (.ok c_data, cache', n) =>
      ((diskio_counter_list conf inst c_data now, none), cache', n)

/-! ### CPU producer (`CPUPollster`) -/

/-- The process-lifetime utilization tracker (`CPUPollster.utilization_map`):
instance id to (last cumulative CPU time, wall-clock moment observed). -/
abbrev UMap : Type := String → Option (Int × Int)

/-- The `seconds` attribute of a Python `timedelta` of `t` microseconds
(Python normalizes to `0 <= seconds < 86400`, flooring the day count). -/
def timedelta_seconds (t : Int) : Int :=
  (t % 86400000000) / 1000000

/-- The `microseconds` attribute of a Python `timedelta` of `t` microseconds
(normalized to `0 <= microseconds < 10^6`). -/
def timedelta_microseconds (t : Int) : Int :=
  (t % 86400000000) % 1000000

/-- The elapsed value computed at line 254 of the source from a wall-clock
difference of `t` microseconds:
`(delta.seconds * (10 ** 6) + delta.microseconds) * 1000`. -/
def elapsed_of (t : Int) : Int :=
  (timedelta_seconds t * 1000000 + timedelta_microseconds t) * 1000

/-- `CPUPollster.get_cpu_util(instance, cpu_info)`: updates the utilization
map unconditionally, then derives the utilization from the previous entry if
one existed.  `1.0 / cpu_info.number` and the final division raise
`ZeroDivisionError` when their divisor is zero (the source has no guard). -/
def get_cpu_util (umap : UMap) (inst : Instance) (cpu_info : CPUStats)
    (now : Int) : Except PyErr ℚ × UMap :=
  let prev_times := umap inst.id
  let umap' : UMap := fun k => if k = inst.id then some (cpu_info.time, now) else umap k
  match prev_times with
  | none => (.ok 0, umap')
  | some (prev_cpu, prev_timestamp) =>
      let delta := now - prev_timestamp
      let elapsed := elapsed_of delta
      if cpu_info.number = 0 then (.error .zeroDivision, umap')
      else
        let cores_fraction : ℚ := 1 / (cpu_info.number : ℚ)
        let time_used : Int :=
          if prev_cpu ≤ cpu_info.time then cpu_info.time - prev_cpu else cpu_info.time
        if elapsed = 0 then (.error .zeroDivision, umap')
        else (.ok (100 * cores_fraction * (time_used : ℚ) / (elapsed : ℚ)), umap')

/-- `CPUPollster.get_counters`: the inspector call and the whole utilization
computation sit inside the `try:` block, so any exception is caught and the
generator yields nothing for that instance.  The tracker update performed
inside `get_cpu_util` persists even when the later division raised. -/
def cpu_get_counters (conf : Conf) (inspector : Inspector) (umap : UMap)
    (inst : Instance) (now : Int) : PollResult × UMap :=
  let instance_name := _instance_name inst
  match inspector.inspect_cpus instance_name with
  | .error _ => (([], none), umap)
  | .ok cpu_info =>
      match get_cpu_util umap inst cpu_info now with
      | (.error _, umap') => (([], none), umap')
      | (.ok cpu_util, umap') =>
          (([make_counter_from_instance conf inst "cpu_util" .gauge "%" cpu_util now,
             make_counter_from_instance conf inst "cpu" .cumulative "ns"
               (cpu_info.time : ℚ) now],
            none),
           umap')

/-! ### Network producer (`NetPollster`) -/

/-- Python `"%s" % x` rendering of an optional string (`None` prints as
`"None"`). -/
def optRepr : Option String → String
  | some s => s
  | none => "None"

/-- The resource id chosen by `NetPollster.make_vnic_counter`: the vNIC's
stable reference `fref` when present, otherwise
`"%s-%s-%s" % (instance_name, instance.id, vnic_data.name)`. -/
def vnic_resource_id (inst : Instance) (vnic : Vnic) : String :=
  match vnic.fref with
  | some f => f
  | none => optRepr (_instance_name inst) ++ "-" ++ inst.id ++ "-" ++ vnic.name

/-- `NetPollster.make_vnic_counter`: a sample whose resource id is
`vnic_resource_id` and whose metadata zips the vNIC's fields and adds the
instance id and type. -/
def make_vnic_counter (inst : Instance) (name : String) (type : CounterType)
    (unit : String) (volume : ℚ) (vnic_data : Vnic) (now : Int) : Counter :=
  let resource_metadata : List (String × MetaVal) :=
    [("name", .str vnic_data.name),
     ("fref", match vnic_data.fref with | some f => .str f | none => .none_),
     ("instance_id", .str inst.id),
     ("instance_type",
       match inst.flavor with | some f => .str f.id | none => .none_)]
  { name := name
    type := type
    unit := unit
    volume := volume
    user_id := inst.user_id
    project_id := inst.tenant_id
    resource_id := vnic_resource_id inst vnic_data
    timestamp := now
    resource_metadata := resource_metadata }

/-- The four samples yielded for one vNIC by the loop body of
`NetPollster.get_counters`. -/
def net_vnic_counters (inst : Instance) (now : Int)
    (p : Vnic × VnicStats) : List Counter :=
  [make_vnic_counter inst "network.incoming.bytes" .cumulative "B"
     (p.2.rx_bytes : ℚ) p.1 now,
   make_vnic_counter inst "network.outgoing.bytes" .cumulative "B"
     (p.2.tx_bytes : ℚ) p.1 now,
   make_vnic_counter inst "network.incoming.packets" .cumulative "packet"
     (p.2.rx_packets : ℚ) p.1 now,
   make_vnic_counter inst "network.outgoing.packets" .cumulative "packet"
     (p.2.tx_packets : ℚ) p.1 now]

/-- `NetPollster.get_counters`: the inspector call and the whole loop sit
inside the `try:` block, so an inspector error is caught and the generator
yields nothing for that instance. -/
def net_get_counters (inspector : Inspector) (inst : Instance) (now : Int) :
    PollResult :=
  let instance_name := _instance_name inst
  match inspector.inspect_vnics instance_name with
  | .error _ => ([], none)
  | .ok vnics => (vnics.flatMap (net_vnic_counters inst now), none)

/-! ### Concrete fixtures used by the witnesses and counterexamples -/

/-- A concrete instance (`i-1`, flavor `m1.small`). -/
def inst1 : Instance :=
  { id := "i-1", user_id := "u-1", tenant_id := "t-1", name := "one"
    hostId := "h-1", instance_name := some "vm-1"
    flavor := some ⟨"42", "m1.small"⟩, image := none
    props := [], metadata := [] }

/-- A concrete instance named `vm-a`. -/
def instA : Instance :=
  { id := "i-a", user_id := "u-a", tenant_id := "t-a", name := "a"
    hostId := "h-a", instance_name := some "vm-a"
    flavor := some ⟨"42", "m1.small"⟩, image := none
    props := [], metadata := [] }

/-- A concrete instance named `vm-b`. -/
def instB : Instance :=
  { id := "i-b", user_id := "u-b", tenant_id := "t-b", name := "b"
    hostId := "h-b", instance_name := some "vm-b"
    flavor := some ⟨"42", "m1.small"⟩, image := none
    props := [], metadata := [] }

/-- A fake inspector that succeeds everywhere with fixed data. -/
def insp1 : Inspector :=
  { inspect_cpus := fun _ => .ok ⟨2, 5000⟩
    inspect_disks := fun _ => .ok [(⟨"vda"⟩, ⟨10, 2, 20, 3, 0⟩)]
    inspect_vnics := fun _ => .ok [(⟨"eth0", some "fref-a"⟩, ⟨1, 2, 3, 4⟩)] }

/-- A fake inspector that raises for instance name `vm-b` and succeeds for
every other instance. -/
def badInspB : Inspector :=
  { inspect_cpus := fun n =>
      if n = some "vm-b" then .error (.inspection "boom") else .ok ⟨2, 5000⟩
    inspect_disks := fun n =>
      if n = some "vm-b" then .error (.inspection "boom")
      else .ok [(⟨"vda"⟩, ⟨10, 2, 20, 3, 0⟩)]
    inspect_vnics := fun n =>
      if n = some "vm-b" then .error (.inspection "boom")
      else .ok [(⟨"eth0", some "fref-a"⟩, ⟨1, 2, 3, 4⟩)] }

/-- A fake inspector whose disk enumeration always raises. -/
def badInsp0 : Inspector :=
  { inspect_cpus := fun _ => .error (.inspection "boom")
    inspect_disks := fun _ => .error (.inspection "boom")
    inspect_vnics := fun _ => .error (.inspection "boom") }

/-- A fake inspector reporting two vNICs with distinct stable references. -/
def inspVnics2 : Inspector :=
  { inspect_cpus := fun _ => .ok ⟨2, 5000⟩
    inspect_disks := fun _ => .ok []
    inspect_vnics := fun _ =>
      .ok [(⟨"eth0", some "fref-a"⟩, ⟨1, 2, 3, 4⟩),
           (⟨"eth1", some "fref-b"⟩, ⟨5, 6, 7, 8⟩)] }

/-- An empty utilization tracker. -/
def emptyUMap : UMap := fun _ => none

/-- A tracker holding a previous observation `(1000 ns, t = 0)` for `i-1`. -/
def umap0 : UMap := fun k => if k = "i-1" then some (1000, 0) else none

/-- A tracker holding a previous observation `(9000 ns, t = 0)` for `i-1`. -/
def umap9 : UMap := fun k => if k = "i-1" then some (9000, 0) else none

/-- An instance carrying one reserved metadata entry `metering.a.b`. -/
def instMeta1 : Instance :=
  { id := "i-m", user_id := "u-m", tenant_id := "t-m", name := "m"
    hostId := "h-m", instance_name := some "vm-m"
    flavor := some ⟨"42", "m1.small"⟩, image := none
    props := [], metadata := [("metering.a.b", .str "hello")] }

/-- A top-level metadata dictionary with one field. -/
def md1 : List (String × MetaVal) := [("display_name", .str "x")]

/-! ### Dictionary lemmas -/

/-- Looking up the key just assigned returns the assigned value. -/
theorem alLookup_alInsert_self {α β : Type} [DecidableEq α]
    (l : List (α × β)) (k : α) (v : β) :
    alLookup (alInsert l k v) k = some v := by
  induction l with
  | nil => simp [alInsert, alLookup]
  | cons kv rest ih =>
    by_cases h : kv.1 = k
    · simp [alInsert, h, alLookup]
    · simp [alInsert, h, alLookup, ih]

/-- Assignment leaves every other key's lookup unchanged. -/
theorem alLookup_alInsert_ne {α β : Type} [DecidableEq α]
    (l : List (α × β)) (k k' : α) (v : β) (h : k ≠ k') :
    alLookup (alInsert l k v) k' = alLookup l k' := by
  induction l with
  | nil => simp [alInsert, alLookup, h]
  | cons kv rest ih =>
    by_cases hk : kv.1 = k
    · simp [alInsert, hk, alLookup, h]
    · simp [alInsert, hk, alLookup, ih]

/-- Re-assigning the same value leaves the dictionary unchanged. -/
theorem alInsert_alInsert_self {α β : Type} [DecidableEq α]
    (l : List (α × β)) (k : α) (v : β) :
    alInsert (alInsert l k v) k v = alInsert l k v := by
  induction l with
  | nil => simp [alInsert]
  | cons kv rest ih =>
    by_cases h : kv.1 = k
    · simp [alInsert, h]
    · simp [alInsert, h, ih]

/-- A successful lookup exhibits a member of the dictionary. -/
theorem alLookup_mem {α β : Type} [DecidableEq α]
    (l : List (α × β)) (k : α) (w : β) :
    alLookup l k = some w → (k, w) ∈ l := by
  induction l with
  | nil => simp [alLookup]
  | cons kv rest ih =>
    simp only [alLookup]
    by_cases h : kv.1 = k
    · simp only [h, if_pos]
      intro hw
      have : kv = (k, w) := by
        cases kv
        simp only [Option.some.injEq] at hw
        simp_all
      rw [← this]
      exact List.mem_cons_self kv rest
    · simp only [h, if_neg, if_false]
      intro hw
      exact List.mem_cons_of_mem _ (ih hw)

/-- Every member of a dictionary after an assignment is an old member or the
assigned pair. -/
theorem mem_alInsert {α β : Type} [DecidableEq α]
    (l : List (α × β)) (k : α) (v : β) (kv' : α × β) :
    kv' ∈ alInsert l k v → kv' ∈ l ∨ kv' = (k, v) := by
  induction l with
  | nil => simp [alInsert]
  | cons kv rest ih =>
    by_cases h : kv.1 = k
    · simp only [alInsert, h, if_pos]
      intro hm
      rcases List.mem_cons.mp hm with h1 | h1
      · exact Or.inr h1
      · exact Or.inl (List.mem_cons_of_mem _ h1)
    · simp only [alInsert, h, if_neg, if_false]
      intro hm
      rcases List.mem_cons.mp hm with h1 | h1
      · exact Or.inl (h1 ▸ List.mem_cons_self kv rest)
      · rcases ih h1 with h2 | h2
        · exact Or.inl (List.mem_cons_of_mem _ h2)
        · exact Or.inr h2

/-- A successful lookup in a dictionary built by folding assignments comes
from the initial dictionary or from one of the folded items. -/
theorem alLookup_foldl_some {α β γ : Type} [DecidableEq α]
    (f : γ → α) (g : γ → β) :
    ∀ (l : List γ) (acc : List (α × β)) (t : α) (w : β),
      alLookup (l.foldl (fun a x => alInsert a (f x) (g x)) acc) t = some w →
      alLookup acc t = some w ∨ ∃ x ∈ l, f x = t ∧ w = g x := by
  intro l
  induction l with
  | nil => intro acc t w h; exact Or.inl h
  | cons x xs ih =>
    intro acc t w h
    rcases ih (alInsert acc (f x) (g x)) t w h with h' | ⟨y, hy, hf, hw⟩
    · by_cases hfx : f x = t
      · subst hfx
        rw [alLookup_alInsert_self] at h'
        exact Or.inr ⟨x, List.mem_cons_self x xs, rfl, (Option.some.inj h').symm⟩
      · rw [alLookup_alInsert_ne _ _ _ _ hfx] at h'
        exact Or.inl h'
    · exact Or.inr ⟨y, List.mem_cons_of_mem _ hy, hf, hw⟩

/-- A key present initially, or contributed by a folded item, is present
after folding the assignments. -/
theorem alLookup_foldl_isSome {α β γ : Type} [DecidableEq α]
    (f : γ → α) (g : γ → β) :
    ∀ (l : List γ) (acc : List (α × β)) (t : α),
      ((alLookup acc t).isSome = true ∨ ∃ x ∈ l, f x = t) →
      (alLookup (l.foldl (fun a x => alInsert a (f x) (g x)) acc) t).isSome = true := by
  intro l
  induction l with
  | nil =>
    intro acc t h
    rcases h with h | ⟨x, hx, _⟩
    · exact h
    · exact absurd hx (List.not_mem_nil x)
  | cons x xs ih =>
    intro acc t h
    apply ih (alInsert acc (f x) (g x)) t
    by_cases hfx : f x = t
    · subst hfx
      exact Or.inl (by rw [alLookup_alInsert_self]; rfl)
    · rcases h with h | ⟨y, hy, hf⟩
      · exact Or.inl (by rw [alLookup_alInsert_ne _ _ _ _ hfx]; exact h)
      · rcases List.mem_cons.mp hy with h1 | h1
        · exact absurd (h1 ▸ hf) hfx
        · exact Or.inr ⟨y, h1, hf⟩

/-- Every member of a dictionary built by folding assignments is a member of
the initial dictionary or the image of a folded item. -/
theorem mem_foldl_alInsert {α β γ : Type} [DecidableEq α]
    (f : γ → α) (g : γ → β) :
    ∀ (l : List γ) (acc : List (α × β)) (kv : α × β),
      kv ∈ l.foldl (fun a x => alInsert a (f x) (g x)) acc →
      kv ∈ acc ∨ ∃ x ∈ l, kv = (f x, g x) := by
  intro l
  induction l with
  | nil => intro acc kv h; exact Or.inl h
  | cons x xs ih =>
    intro acc kv h
    rcases ih (alInsert acc (f x) (g x)) kv h with h' | ⟨y, hy, hkv⟩
    · rcases mem_alInsert _ _ _ _ h' with h2 | h2
      · exact Or.inl h2
      · exact Or.inr ⟨x, List.mem_cons_self x xs, h2⟩
    · exact Or.inr ⟨y, List.mem_cons_of_mem _ hy, hkv⟩

/-! ### Network producer lemmas -/

/-- The vNIC loop yields four samples per vNIC. -/
theorem length_flatMap_net_vnic_counters (inst : Instance) (now : Int) :
    ∀ l : List (Vnic × VnicStats),
      (l.flatMap (net_vnic_counters inst now)).length = 4 * l.length := by
  intro l
  induction l with
  | nil => simp
  | cons p ps ih =>
    simp only [List.flatMap_cons, List.length_append, ih, List.length_cons]
    simp [net_vnic_counters]
    omega

/-- Every sample yielded by the vNIC loop is CUMULATIVE. -/
theorem type_flatMap_net_vnic_counters (inst : Instance) (now : Int) :
    ∀ l : List (Vnic × VnicStats),
      ∀ c ∈ l.flatMap (net_vnic_counters inst now), c.type = CounterType.cumulative := by
  intro l
  induction l with
  | nil => simp
  | cons p ps ih =>
    intro c hc
    rw [List.flatMap_cons] at hc
    rcases List.mem_append.mp hc with h | h
    · simp only [net_vnic_counters, List.mem_cons, List.not_mem_nil, or_false] at h
      rcases h with h | h | h | h <;> subst h <;> rfl
    · exact ih c h

/-- The resource ids of the samples yielded by the vNIC loop: four copies of
the per-vNIC resource id, vNIC by vNIC. -/
theorem rids_flatMap_net_vnic_counters (inst : Instance) (now : Int) :
    ∀ l : List (Vnic × VnicStats),
      (l.flatMap (net_vnic_counters inst now)).map (fun c => c.resource_id) =
        l.flatMap (fun p => List.replicate 4 (vnic_resource_id inst p.1)) := by
  intro l
  induction l with
  | nil => simp
  | cons p ps ih =>
    simp only [List.flatMap_cons, List.map_append, ih]
    congr 1

/-! ### Elapsed-time lemmas -/

/-- The elapsed value derived from a timedelta is never negative: the
`seconds` and `microseconds` attributes of a Python timedelta are normalized
into `[0, 86400)` and `[0, 10^6)` whatever the sign of the difference. -/
theorem elapsed_of_nonneg (t : Int) : 0 ≤ elapsed_of t := by
  unfold elapsed_of timedelta_seconds timedelta_microseconds
  omega

/-! ### CPU utilization reduction lemmas -/

/-- Evaluation of `get_cpu_util` when no previous tracker entry exists. -/
theorem get_cpu_util_none (umap : UMap) (inst : Instance) (cpu_info : CPUStats)
    (now : Int) (h : umap inst.id = none) :
    get_cpu_util umap inst cpu_info now =
      (.ok 0, fun k => if k = inst.id then some (cpu_info.time, now) else umap k) := by
  unfold get_cpu_util
  rw [h]

/-- Evaluation of `get_cpu_util` when a previous tracker entry exists. -/
theorem get_cpu_util_eq (umap : UMap) (inst : Instance) (cpu_info : CPUStats)
    (now prev_cpu prev_ts : Int) (h : umap inst.id = some (prev_cpu, prev_ts)) :
    get_cpu_util umap inst cpu_info now =
      (if cpu_info.number = 0 then
        (.error .zeroDivision,
         fun k => if k = inst.id then some (cpu_info.time, now) else umap k)
       else if elapsed_of (now - prev_ts) = 0 then
        (.error .zeroDivision,
         fun k => if k = inst.id then some (cpu_info.time, now) else umap k)
       else
        (.ok (100 * (1 / (cpu_info.number : ℚ)) *
            (((if prev_cpu ≤ cpu_info.time then cpu_info.time - prev_cpu
               else cpu_info.time) : Int) : ℚ) /
            ((elapsed_of (now - prev_ts) : Int) : ℚ)),
         fun k => if k = inst.id then some (cpu_info.time, now) else umap k)) := by
  unfold get_cpu_util
  rw [h]

/-! ### Claim C9 -/

/-- Claim C9: the elapsed divisor is built only from the `seconds` and
`microseconds` attributes of the wall-clock difference.  For two observations
separated by `d` days plus `s` seconds plus `u` microseconds (with `s`, `u`
in their normalized ranges), the computed elapsed value is
`(s * 10^6 + u) * 1000` nanoseconds whatever `d` is, so the whole-day part of
the interval is ignored. -/
theorem c9_elapsed_ignores_days (d s u : Int)
    (hs0 : 0 ≤ s) (hs : s < 86400) (hu0 : 0 ≤ u) (hu : u < 1000000) :
    elapsed_of (d * 86400000000 + s * 1000000 + u) = (s * 1000000 + u) * 1000 := by
  unfold elapsed_of timedelta_seconds timedelta_microseconds
  omega

/-- Witness for C9: two observations 2 days, 5 seconds and 7 microseconds
apart give the elapsed value of just 5 seconds and 7 microseconds. -/
theorem c9_elapsed_ignores_days_witness :
    (0:Int) ≤ 5 ∧ (5:Int) < 86400 ∧ (0:Int) ≤ 7 ∧ (7:Int) < 1000000 ∧
    elapsed_of (2 * 86400000000 + 5 * 1000000 + 7) = (5 * 1000000 + 7) * 1000 :=
  ⟨by norm_num, by norm_num, by norm_num, by norm_num,
   c9_elapsed_ignores_days 2 5 7 (by norm_num) (by norm_num) (by norm_num)
     (by norm_num)⟩

/-! ### Claim C2 (corrected) -/

/-- Counterexample for C2 as stated: a previous tracker entry exists for
`i-1`, and the new observation happens at the very moment recorded in that
entry (`now = prev_timestamp = 0`), so the elapsed time is `0`.  The claim
says the computed utilization is `0` with no arithmetic error; the code has
no such guard and the division raises `ZeroDivisionError` instead. -/
theorem c2_counterexample :
    (get_cpu_util umap0 inst1 ⟨1, 5000⟩ 0).1 = Except.error PyErr.zeroDivision ∧
    (get_cpu_util umap0 inst1 ⟨1, 5000⟩ 0).1 ≠ Except.ok 0 := by
  exact ⟨by decide, by decide⟩

/-- Claim C2 amended: the elapsed value computed by the code is never
negative, but there is no `elapsed <= 0` guard: whenever a previous tracker
entry exists and the computed elapsed value is `0`, `get_cpu_util` raises
`ZeroDivisionError` (rather than returning utilization 0); the exception is
caught by the producer's outer handler, so the CPU producer emits no samples
for that instance. -/
theorem c2_elapsed_zero_raises :
    (∀ t : Int, 0 ≤ elapsed_of t) ∧
    (∀ (umap : UMap) (inst : Instance) (cpu_info : CPUStats)
        (now prev_cpu prev_ts : Int),
      umap inst.id = some (prev_cpu, prev_ts) →
      elapsed_of (now - prev_ts) = 0 →
      (get_cpu_util umap inst cpu_info now).1 = .error .zeroDivision) ∧
    (∀ (conf : Conf) (inspector : Inspector) (umap : UMap) (inst : Instance)
        (cpu_info : CPUStats) (now prev_cpu prev_ts : Int),
      inspector.inspect_cpus (_instance_name inst) = .ok cpu_info →
      umap inst.id = some (prev_cpu, prev_ts) →
      elapsed_of (now - prev_ts) = 0 →
      (cpu_get_counters conf inspector umap inst now).1 = ([], none)) := by
  refine ⟨elapsed_of_nonneg, ?_, ?_⟩
  · intro umap inst cpu_info now prev_cpu prev_ts h1 h2
    rw [get_cpu_util_eq umap inst cpu_info now prev_cpu prev_ts h1]
    by_cases hn : cpu_info.number = 0
    · rw [if_pos hn]
    · rw [if_neg hn, if_pos h2]
  · intro conf inspector umap inst cpu_info now prev_cpu prev_ts hins h1 h2
    simp only [cpu_get_counters, hins]
    rw [get_cpu_util_eq umap inst cpu_info now prev_cpu prev_ts h1]
    by_cases hn : cpu_info.number = 0
    · rw [if_pos hn]
    · rw [if_neg hn, if_pos h2]

/-- Witness for C2 amended: previous entry `(1000, 0)` for `i-1` and a new
observation at `now = 0` (elapsed 0): `get_cpu_util` raises. -/
theorem c2_elapsed_zero_raises_witness :
    umap0 inst1.id = some (1000, 0) ∧ elapsed_of ((0:Int) - 0) = 0 ∧
    (get_cpu_util umap0 inst1 ⟨1, 5000⟩ 0).1 = .error .zeroDivision :=
  ⟨by decide, by decide,
   c2_elapsed_zero_raises.2.1 umap0 inst1 ⟨1, 5000⟩ 0 1000 0 (by decide) (by decide)⟩

/-! ### Claim C4 -/

/-- Claim C4: with a previous tracker entry `(prev_cpu, prev_ts)`, a
cumulative time at least `prev_cpu`, a nonzero core count, and a positive
elapsed value, the emitted utilization is exactly
`100 * (1 / core_count) * (cumulative_time - prev_time) / elapsed`. -/
theorem c4_cpu_util_formula (umap : UMap) (inst : Instance)
    (cpu_info : CPUStats) (now prev_cpu prev_ts : Int)
    (hprev : umap inst.id = some (prev_cpu, prev_ts))
    (hle : prev_cpu ≤ cpu_info.time)
    (hn : cpu_info.number ≠ 0)
    (helapsed : 0 < elapsed_of (now - prev_ts)) :
    (get_cpu_util umap inst cpu_info now).1 =
      .ok (100 * (1 / (cpu_info.number : ℚ)) *
        ((cpu_info.time - prev_cpu : Int) : ℚ) /
        ((elapsed_of (now - prev_ts) : Int) : ℚ)) := by
  rw [get_cpu_util_eq umap inst cpu_info now prev_cpu prev_ts hprev]
  rw [if_neg hn, if_neg (by omega : ¬ elapsed_of (now - prev_ts) = 0)]
  simp only [if_pos hle]

/-- Witness for C4: core_count = 4, prev_time = 1000 ns at t0 = 0,
cumulative_time = 5000 ns at t1 = 4 microseconds (elapsed 4000 ns):
utilization is exactly 25. -/
theorem c4_cpu_util_formula_witness :
    umap0 inst1.id = some (1000, 0) ∧
    (get_cpu_util umap0 inst1 ⟨4, 5000⟩ 4).1 = .ok 25 := by
  refine ⟨by decide, ?_⟩
  have h := c4_cpu_util_formula umap0 inst1 ⟨4, 5000⟩ 4 1000 0 (by decide)
    (by decide) (by decide) (by decide)
  rw [h, show elapsed_of (4 - 0) = 4000 from by decide]
  norm_num

/-! ### Claim C5 -/

/-- Claim C5: with a previous tracker entry whose recorded time exceeds the
newly observed cumulative time (counter reset), the time used in the
utilization formula is the new cumulative time itself, not a negative
difference. -/
theorem c5_counter_reset (umap : UMap) (inst : Instance)
    (cpu_info : CPUStats) (now prev_cpu prev_ts : Int)
    (hprev : umap inst.id = some (prev_cpu, prev_ts))
    (hlt : cpu_info.time < prev_cpu)
    (hn : cpu_info.number ≠ 0)
    (helapsed : 0 < elapsed_of (now - prev_ts)) :
    (get_cpu_util umap inst cpu_info now).1 =
      .ok (100 * (1 / (cpu_info.number : ℚ)) * ((cpu_info.time : Int) : ℚ) /
        ((elapsed_of (now - prev_ts) : Int) : ℚ)) := by
  rw [get_cpu_util_eq umap inst cpu_info now prev_cpu prev_ts hprev]
  rw [if_neg hn, if_neg (by omega : ¬ elapsed_of (now - prev_ts) = 0)]
  simp only [if_neg (by omega : ¬ prev_cpu ≤ cpu_info.time)]

/-- Witness for C5: prev_time = 9000, new cumulative_time = 100 (restart),
one core, elapsed 4000 ns: time_used is 100, giving utilization 5/2, not a
negative value. -/
theorem c5_counter_reset_witness :
    umap9 inst1.id = some (9000, 0) ∧ (100:Int) < 9000 ∧
    (get_cpu_util umap9 inst1 ⟨1, 100⟩ 4).1 = .ok (5/2) := by
  refine ⟨by decide, by decide, ?_⟩
  have h := c5_counter_reset umap9 inst1 ⟨1, 100⟩ 4 9000 0 (by decide)
    (by decide) (by decide) (by decide)
  rw [h, show elapsed_of (4 - 0) = 4000 from by decide]
  norm_num

/-! ### Claim C6 -/

/-- Claim C6: when the utilization tracker holds no entry for the instance
id, the CPU producer's `cpu_util` sample (the first one yielded) has
volume 0; the `cpu` sample carries the raw cumulative time. -/
theorem c6_first_cycle_zero (conf : Conf) (inspector : Inspector) (umap : UMap)
    (inst : Instance) (now : Int) (cpu_info : CPUStats)
    (hnone : umap inst.id = none)
    (hins : inspector.inspect_cpus (_instance_name inst) = .ok cpu_info) :
    (cpu_get_counters conf inspector umap inst now).1 =
      ([make_counter_from_instance conf inst "cpu_util" .gauge "%" 0 now,
        make_counter_from_instance conf inst "cpu" .cumulative "ns"
          (cpu_info.time : ℚ) now],
       none) := by
  simp only [cpu_get_counters, hins]
  rw [get_cpu_util_none umap inst cpu_info now hnone]

/-- Witness for C6: an empty tracker and a succeeding inspector give a
`cpu_util` sample of volume 0. -/
theorem c6_first_cycle_zero_witness :
    emptyUMap inst1.id = none ∧
    insp1.inspect_cpus (_instance_name inst1) = .ok ⟨2, 5000⟩ ∧
    (cpu_get_counters defaultConf insp1 emptyUMap inst1 7).1 =
      ([make_counter_from_instance defaultConf inst1 "cpu_util" .gauge "%" 0 7,
        make_counter_from_instance defaultConf inst1 "cpu" .cumulative "ns"
          ((5000 : Int) : ℚ) 7],
       none) :=
  ⟨rfl, rfl,
   c6_first_cycle_zero defaultConf insp1 emptyUMap inst1 7 ⟨2, 5000⟩ rfl rfl⟩

/-! ### Claim C7 -/

/-- Claim C7: after every `get_cpu_util` computation the tracker maps the
instance id to the newly observed `(cumulative_time, now)` — whether or not
an entry previously existed — and every other id's entry is unchanged. -/
theorem c7_tracker_update (umap : UMap) (inst : Instance)
    (cpu_info : CPUStats) (now : Int) :
    (get_cpu_util umap inst cpu_info now).2 inst.id = some (cpu_info.time, now) ∧
    ∀ j : String, j ≠ inst.id → (get_cpu_util umap inst cpu_info now).2 j = umap j := by
  have h2 : (get_cpu_util umap inst cpu_info now).2 =
      fun k => if k = inst.id then some (cpu_info.time, now) else umap k := by
    cases h : umap inst.id with
    | none => rw [get_cpu_util_none umap inst cpu_info now h]
    | some pt =>
      rcases pt with ⟨p, ts⟩
      rw [get_cpu_util_eq umap inst cpu_info now p ts h]
      split_ifs <;> rfl
  rw [h2]
  exact ⟨by simp, fun j hj => by simp [hj]⟩

/-- Witness for C7: after observing `(5000, 4)` for `i-1`, the tracker holds
`(5000, 4)` at `i-1` (replacing `(1000, 0)`) and is unchanged elsewhere. -/
theorem c7_tracker_update_witness :
    (get_cpu_util umap0 inst1 ⟨4, 5000⟩ 4).2 "i-1" = some (5000, 4) ∧
    (get_cpu_util umap0 inst1 ⟨4, 5000⟩ 4).2 "zzz" = umap0 "zzz" := by
  have h := c7_tracker_update umap0 inst1 ⟨4, 5000⟩ 4
  exact ⟨h.1, h.2 "zzz" (by decide)⟩

/-! ### Disk-I/O reduction lemmas -/

/-- Evaluation of `_populate_cache` on a cache hit. -/
theorem populate_cache_cached (inspector : Inspector) (cache : Cache)
    (iname : Option String) (d : DiskIOData)
    (h : alLookup ((alLookup cache CACHE_KEY_DISK).getD []) iname = some d) :
    _populate_cache inspector cache iname =
      (.ok d,
       alInsert cache CACHE_KEY_DISK ((alLookup cache CACHE_KEY_DISK).getD []),
       0) := by
  simp only [_populate_cache, h]

/-- Evaluation of `_populate_cache` on a cache miss when the inspector
raises: the error propagates and nothing is stored for the instance. -/
theorem populate_cache_error (inspector : Inspector) (cache : Cache)
    (iname : Option String) (e : PyErr)
    (h1 : alLookup ((alLookup cache CACHE_KEY_DISK).getD []) iname = none)
    (h2 : inspector.inspect_disks iname = .error e) :
    _populate_cache inspector cache iname =
      (.error e,
       alInsert cache CACHE_KEY_DISK ((alLookup cache CACHE_KEY_DISK).getD []),
       1) := by
  simp only [_populate_cache, h1, h2]

/-- Evaluation of `_populate_cache` on a cache miss when the inspector
succeeds: the summed aggregate is stored and returned, with one call made. -/
theorem populate_cache_fresh (inspector : Inspector) (cache : Cache)
    (iname : Option String) (disks : List (Disk × DiskStats))
    (h1 : alLookup ((alLookup cache CACHE_KEY_DISK).getD []) iname = none)
    (h2 : inspector.inspect_disks iname = .ok disks) :
    _populate_cache inspector cache iname =
      (.ok (disk_sum disks),
       alInsert cache CACHE_KEY_DISK
         (alInsert ((alLookup cache CACHE_KEY_DISK).getD []) iname
           (disk_sum disks)),
       1) := by
  simp only [_populate_cache, h1, h2]

/-- Evaluation of `diskio_get_counters` when `_populate_cache` returns. -/
theorem diskio_get_counters_of_populate_ok (conf : Conf)
    (inspector : Inspector) (cache : Cache) (inst : Instance) (now : Int)
    (d : DiskIOData) (cache' : Cache) (n : Nat)
    (h : _populate_cache inspector cache (_instance_name inst) = (.ok d, cache', n)) :
    diskio_get_counters conf inspector cache inst now =
      ((diskio_counter_list conf inst d now, none), cache', n) := by
  simp only [diskio_get_counters, h]

/-- Evaluation of `diskio_get_counters` when `_populate_cache` raises: the
exception escapes the generator. -/
theorem diskio_get_counters_of_populate_error (conf : Conf)
    (inspector : Inspector) (cache : Cache) (inst : Instance) (now : Int)
    (e : PyErr) (cache' : Cache) (n : Nat)
    (h : _populate_cache inspector cache (_instance_name inst) = (.error e, cache', n)) :
    diskio_get_counters conf inspector cache inst now = (([], some e), cache', n) := by
  simp only [diskio_get_counters, h]

/-! ### Claim C1 (code bug in the Disk-I/O producer) -/

/-- Claim C1 evaluated at a failing input.  With an inspector that raises
for instance `vm-b` and succeeds elsewhere: the Disk-I/O producer lets the
inspector exception escape the generator for `vm-b` (its `_populate_cache`
call sits before the `try:` block), so the claimed isolation fails there;
the CPU and Network producers do isolate the error (zero samples, no
exception); and all three producers still yield full sample sets for the
healthy instance `vm-a` in the same cycle. -/
theorem c1_failure_isolation_eval :
    (diskio_get_counters defaultConf badInspB [] instB 0).1 =
      ([], some (PyErr.inspection "boom")) ∧
    (cpu_get_counters defaultConf badInspB emptyUMap instB 0).1 = ([], none) ∧
    net_get_counters badInspB instB 0 = ([], none) ∧
    ((diskio_get_counters defaultConf badInspB [] instA 0).1.1.map
        (fun c => c.name) =
      ["disk.read.requests", "disk.read.bytes", "disk.write.requests",
       "disk.write.bytes"] ∧
     (diskio_get_counters defaultConf badInspB [] instA 0).1.2 = none) ∧
    (net_get_counters badInspB instA 0).1.length = 4 ∧
    (cpu_get_counters defaultConf badInspB emptyUMap instA 0).1.1.map
        (fun c => c.name) = ["cpu_util", "cpu"] :=
  ⟨rfl, rfl, rfl, ⟨by decide, rfl⟩, by decide, by decide⟩

/-! ### Claim C3 (corrected) -/

/-- Counterexample for C3 as stated: with an inspector whose disk
enumeration always raises, two invocations of the Disk-I/O producer for the
same instance in the same cycle (the second reusing the cache returned by
the first) each make one inspector call — two calls in total, because a
failed enumeration caches nothing. -/
theorem c3_counterexample :
    (diskio_get_counters defaultConf badInsp0 [] inst1 0).2.2 = 1 ∧
    (diskio_get_counters defaultConf badInsp0
        (diskio_get_counters defaultConf badInsp0 [] inst1 0).2.1 inst1 0).2.2 = 1 :=
  ⟨rfl, rfl⟩

/-- Claim C3 amended: one invocation of the Disk-I/O producer makes at most
one inspector call, and whenever an invocation completes without an escaping
error, a repeated invocation on the cache it returned yields the same
samples, leaves the cache unchanged, and makes no inspector call.  (When the
enumeration raises, nothing is cached and a later invocation calls the
inspector again.) -/
theorem c3_cache_single_inspection (conf : Conf) (inspector : Inspector)
    (cache : Cache) (inst : Instance) (now : Int) :
    (diskio_get_counters conf inspector cache inst now).2.2 ≤ 1 ∧
    ((diskio_get_counters conf inspector cache inst now).1.2 = none →
      diskio_get_counters conf inspector
          (diskio_get_counters conf inspector cache inst now).2.1 inst now =
        ((diskio_get_counters conf inspector cache inst now).1,
         (diskio_get_counters conf inspector cache inst now).2.1, 0)) := by
  cases h1 : alLookup ((alLookup cache CACHE_KEY_DISK).getD [])
      (_instance_name inst) with
  | some d =>
    have hg := diskio_get_counters_of_populate_ok conf inspector cache inst now
      d _ 0 (populate_cache_cached inspector cache (_instance_name inst) d h1)
    rw [hg]
    refine ⟨by norm_num, fun _ => ?_⟩
    have hc1 : (alLookup
        (alInsert cache CACHE_KEY_DISK ((alLookup cache CACHE_KEY_DISK).getD []))
        CACHE_KEY_DISK).getD [] = (alLookup cache CACHE_KEY_DISK).getD [] := by
      rw [alLookup_alInsert_self]
      rfl
    have hl : alLookup ((alLookup
        (alInsert cache CACHE_KEY_DISK ((alLookup cache CACHE_KEY_DISK).getD []))
        CACHE_KEY_DISK).getD []) (_instance_name inst) = some d := by
      rw [hc1]; exact h1
    have hg2 := diskio_get_counters_of_populate_ok conf inspector _ inst now
      d _ 0 (populate_cache_cached inspector _ (_instance_name inst) d hl)
    rw [hg2, hc1, alInsert_alInsert_self]
  | none =>
    cases h2 : inspector.inspect_disks (_instance_name inst) with
    | error e =>
      have hg := diskio_get_counters_of_populate_error conf inspector cache inst
        now e _ 1 (populate_cache_error inspector cache (_instance_name inst) e h1 h2)
      rw [hg]
      exact ⟨le_refl 1, fun hcontra => by simp at hcontra⟩
    | ok disks =>
      have hg := diskio_get_counters_of_populate_ok conf inspector cache inst now
        (disk_sum disks) _ 1
        (populate_cache_fresh inspector cache (_instance_name inst) disks h1 h2)
      rw [hg]
      refine ⟨le_refl 1, fun _ => ?_⟩
      have hc1 : (alLookup
          (alInsert cache CACHE_KEY_DISK
            (alInsert ((alLookup cache CACHE_KEY_DISK).getD [])
              (_instance_name inst) (disk_sum disks)))
          CACHE_KEY_DISK).getD [] =
          alInsert ((alLookup cache CACHE_KEY_DISK).getD [])
            (_instance_name inst) (disk_sum disks) := by
        rw [alLookup_alInsert_self]
        rfl
      have hl : alLookup ((alLookup
          (alInsert cache CACHE_KEY_DISK
            (alInsert ((alLookup cache CACHE_KEY_DISK).getD [])
              (_instance_name inst) (disk_sum disks)))
          CACHE_KEY_DISK).getD []) (_instance_name inst) = some (disk_sum disks) := by
        rw [hc1, alLookup_alInsert_self]
      have hg2 := diskio_get_counters_of_populate_ok conf inspector _ inst now
        (disk_sum disks) _ 0
        (populate_cache_cached inspector _ (_instance_name inst) (disk_sum disks) hl)
      rw [hg2, hc1, alInsert_alInsert_self]

/-- Witness for C3 amended: a succeeding inspector, an empty cache: the
first invocation succeeds, and re-invoking on its cache returns the same
result with zero inspector calls. -/
theorem c3_cache_single_inspection_witness :
    (diskio_get_counters defaultConf insp1 [] inst1 0).1.2 = none ∧
    diskio_get_counters defaultConf insp1
        (diskio_get_counters defaultConf insp1 [] inst1 0).2.1 inst1 0 =
      ((diskio_get_counters defaultConf insp1 [] inst1 0).1,
       (diskio_get_counters defaultConf insp1 [] inst1 0).2.1, 0) :=
  ⟨rfl, (c3_cache_single_inspection defaultConf insp1 [] inst1 0).2 rfl⟩

/-! ### Claim C8 -/

/-- Claim C8: when the inspector reports `n` vNICs, the Network producer
emits exactly `4 * n` samples with no escaping error, all CUMULATIVE; the
sample resource ids are, vNIC by vNIC, four copies of the per-vNIC resource
id, which is the vNIC's stable reference when present and otherwise the
synthesized `instance-name - instance-id - NIC-name` string; hence vNICs
with distinct derived ids give samples with distinct ids across vNICs. -/
theorem c8_net_counters (inspector : Inspector) (inst : Instance) (now : Int)
    (vnics : List (Vnic × VnicStats))
    (hins : inspector.inspect_vnics (_instance_name inst) = .ok vnics) :
    (net_get_counters inspector inst now).2 = none ∧
    (net_get_counters inspector inst now).1.length = 4 * vnics.length ∧
    (∀ c ∈ (net_get_counters inspector inst now).1,
      c.type = CounterType.cumulative) ∧
    (net_get_counters inspector inst now).1.map (fun c => c.resource_id) =
      vnics.flatMap (fun p => List.replicate 4 (vnic_resource_id inst p.1)) ∧
    (∀ v : Vnic, ∀ f : String, v.fref = some f → vnic_resource_id inst v = f) ∧
    (∀ v : Vnic, v.fref = none →
      vnic_resource_id inst v =
        optRepr (_instance_name inst) ++ "-" ++ inst.id ++ "-" ++ v.name) := by
  have hn : net_get_counters inspector inst now =
      (vnics.flatMap (net_vnic_counters inst now), none) := by
    simp only [net_get_counters, hins]
  rw [hn]
  refine ⟨rfl, length_flatMap_net_vnic_counters inst now vnics,
    type_flatMap_net_vnic_counters inst now vnics,
    rids_flatMap_net_vnic_counters inst now vnics, ?_, ?_⟩
  · intro v f hf
    simp [vnic_resource_id, hf]
  · intro v hf
    simp [vnic_resource_id, hf]

/-- Witness for C8: two vNICs with distinct stable references give exactly
8 samples whose resource ids are four copies of each reference, distinct
across the two vNICs. -/
theorem c8_net_counters_witness :
    inspVnics2.inspect_vnics (_instance_name inst1) =
      .ok [(⟨"eth0", some "fref-a"⟩, ⟨1, 2, 3, 4⟩),
           (⟨"eth1", some "fref-b"⟩, ⟨5, 6, 7, 8⟩)] ∧
    (net_get_counters inspVnics2 inst1 0).1.length = 8 ∧
    (net_get_counters inspVnics2 inst1 0).1.map (fun c => c.resource_id) =
      ["fref-a", "fref-a", "fref-a", "fref-a",
       "fref-b", "fref-b", "fref-b", "fref-b"] ∧
    ("fref-a" : String) ≠ "fref-b" := by
  have h := c8_net_counters inspVnics2 inst1 0
    [(⟨"eth0", some "fref-a"⟩, ⟨1, 2, 3, 4⟩),
     (⟨"eth1", some "fref-b"⟩, ⟨5, 6, 7, 8⟩)] rfl
  exact ⟨rfl, h.2.1, by decide, by decide⟩

/-! ### Claim C10 -/

/-- The truncated string stored for a reserved value is at most `n`
characters long. -/
theorem truncate_take_length_le (s : String) (n : Nat) : (s.take n).length ≤ n := by
  rw [String.take_eq]
  show (List.take n s.data).length ≤ n
  exact List.length_take_le n s.data

/-- Claim C10: for a configuration with one reserved namespace `ns` and
value limit `limit`, every instance metadata key starting with `ns` is
stored in the nested `user_metadata` dictionary under its transformed name
(`ns` stripped, dots to underscores) with a truncated value, provided the
transformed name does not clash with a top-level metadata field; a clashing
key is dropped from `user_metadata` entirely; every string value stored in
`user_metadata` is at most `limit` characters; and the top-level metadata
fields other than `user_metadata` are untouched. -/
theorem c10_reserved_user_metadata (limit : Nat) (ns : String)
    (md : List (String × MetaVal)) (inst : Instance) (k : String) (v : MetaVal)
    (hmem : (k, v) ∈ inst.metadata)
    (hpre : py_startswith k ns = true) :
    (alMem md (transform_key ns k) = false →
      ∃ v' : MetaVal,
        alLookup (reserved_user_metadata limit [ns] inst.metadata md)
            (transform_key ns k) = some (truncate_value limit v') ∧
        ∃ k' : String, (k', v') ∈ inst.metadata ∧ py_startswith k' ns = true ∧
          transform_key ns k' = transform_key ns k) ∧
    (alMem md (transform_key ns k) = false →
      alLookup (_add_reserved_user_metadata ⟨[ns], limit⟩ inst md)
          "user_metadata" =
        some (.map (reserved_user_metadata limit [ns] inst.metadata md))) ∧
    (alMem md (transform_key ns k) = true →
      alLookup (reserved_user_metadata limit [ns] inst.metadata md)
          (transform_key ns k) = none) ∧
    (∀ kv ∈ reserved_user_metadata limit [ns] inst.metadata md,
      ∀ s : String, kv.2 = .str s → s.length ≤ limit) ∧
    (∀ k0 : String, k0 ≠ "user_metadata" →
      alLookup (_add_reserved_user_metadata ⟨[ns], limit⟩ inst md) k0 =
        alLookup md k0) := by
  have hum : reserved_user_metadata limit [ns] inst.metadata md =
      (reserved_prefix_md limit ns inst.metadata md).foldl
        (fun acc kv => alInsert acc kv.1 kv.2) [] := rfl
  have hprov : ∀ t w,
      alLookup (reserved_user_metadata limit [ns] inst.metadata md) t = some w →
      ∃ y ∈ inst.metadata.filter
          (fun kv => py_startswith kv.1 ns && !(alMem md (transform_key ns kv.1))),
        transform_key ns y.1 = t ∧ w = truncate_value limit y.2 := by
    intro t w hw
    rw [hum] at hw
    rcases alLookup_foldl_some Prod.fst Prod.snd _ [] t w hw with h0 | ⟨x, hx, hx1, hx2⟩
    · exact absurd h0 (by simp [alLookup])
    · unfold reserved_prefix_md at hx
      rcases mem_foldl_alInsert (fun kv : String × MetaVal => transform_key ns kv.1)
          (fun kv : String × MetaVal => truncate_value limit kv.2) _ [] x hx with h0 | ⟨y, hy, hxy⟩
      · exact absurd h0 (List.not_mem_nil x)
      · refine ⟨y, hy, ?_, ?_⟩
        · rw [hxy] at hx1
          exact hx1
        · rw [hxy] at hx2
          exact hx2
  have hsome : alMem md (transform_key ns k) = false →
      (alLookup (reserved_user_metadata limit [ns] inst.metadata md)
        (transform_key ns k)).isSome = true := by
    intro hnot
    have hfil : (k, v) ∈ inst.metadata.filter
        (fun kv => py_startswith kv.1 ns && !(alMem md (transform_key ns kv.1))) :=
      List.mem_filter.mpr ⟨hmem, by simp [hpre, hnot]⟩
    have h1 : (alLookup (reserved_prefix_md limit ns inst.metadata md)
        (transform_key ns k)).isSome = true := by
      unfold reserved_prefix_md
      exact alLookup_foldl_isSome (fun kv : String × MetaVal => transform_key ns kv.1)
        (fun kv : String × MetaVal => truncate_value limit kv.2) _ [] _ (Or.inr ⟨(k, v), hfil, rfl⟩)
    rcases Option.isSome_iff_exists.mp h1 with ⟨w, hw⟩
    have hmem2 : (transform_key ns k, w) ∈
        reserved_prefix_md limit ns inst.metadata md := alLookup_mem _ _ _ hw
    rw [hum]
    exact alLookup_foldl_isSome Prod.fst Prod.snd _ [] _
      (Or.inr ⟨(transform_key ns k, w), hmem2, rfl⟩)
  refine ⟨?_, ?_, ?_, ?_, ?_⟩
  · intro hnot
    rcases Option.isSome_iff_exists.mp (hsome hnot) with ⟨w, hw⟩
    rcases hprov _ _ hw with ⟨y, hy, hyt, hyw⟩
    have hyfil := List.mem_filter.mp hy
    have hstart : py_startswith y.1 ns = true := by
      have := hyfil.2
      simp only [Bool.and_eq_true] at this
      exact this.1
    refine ⟨y.2, ?_, y.1, hyfil.1, hstart, hyt⟩
    rw [hw, hyw]
  · intro hnot
    rcases Option.isSome_iff_exists.mp (hsome hnot) with ⟨w, hw⟩
    have hne : (reserved_user_metadata limit [ns] inst.metadata md).isEmpty = false := by
      cases hu : reserved_user_metadata limit [ns] inst.metadata md with
      | nil => rw [hu] at hw; exact absurd hw (by simp [alLookup])
      | cons a l => rfl
    simp only [_add_reserved_user_metadata]
    rw [hne]
    simp only [Bool.false_eq_true, if_false]
    exact alLookup_alInsert_self _ _ _
  · intro hpos
    cases h : alLookup (reserved_user_metadata limit [ns] inst.metadata md)
        (transform_key ns k) with
    | none => rfl
    | some w =>
      rcases hprov _ _ h with ⟨y, hy, hyt, _⟩
      have hyfil := (List.mem_filter.mp hy).2
      simp only [Bool.and_eq_true, Bool.not_eq_true'] at hyfil
      rw [hyt] at hyfil
      rw [hpos] at hyfil
      exact absurd hyfil.2 (by simp)
  · intro kv hkv s hs
    rw [hum] at hkv
    rcases mem_foldl_alInsert Prod.fst Prod.snd _ [] kv hkv with h0 | ⟨x, hx, hkvx⟩
    · exact absurd h0 (List.not_mem_nil kv)
    · unfold reserved_prefix_md at hx
      rcases mem_foldl_alInsert (fun kv : String × MetaVal => transform_key ns kv.1)
          (fun kv : String × MetaVal => truncate_value limit kv.2) _ [] x hx with h0 | ⟨y, hy, hxy⟩
      · exact absurd h0 (List.not_mem_nil x)
      · have hv2 : kv.2 = truncate_value limit y.2 := by rw [hkvx, hxy]
        rw [hv2] at hs
        cases hy2 : y.2 with
        | str s0 =>
          rw [hy2] at hs
          have hs' : MetaVal.str (s0.take limit) = MetaVal.str s := hs
          injection hs' with h
          rw [← h]
          exact truncate_take_length_le s0 limit
        | num n0 => rw [hy2] at hs; exact MetaVal.noConfusion hs
        | map m0 => rw [hy2] at hs; exact MetaVal.noConfusion hs
        | list l0 => rw [hy2] at hs; exact MetaVal.noConfusion hs
        | none_ => rw [hy2] at hs; exact MetaVal.noConfusion hs
  · intro k0 hk0
    by_cases he : (reserved_user_metadata limit [ns] inst.metadata md).isEmpty = true
    · simp only [_add_reserved_user_metadata]
      rw [if_pos he]
    · simp only [_add_reserved_user_metadata]
      rw [if_neg he]
      exact alLookup_alInsert_ne _ _ _ _ (fun h => hk0 h.symm)

/-- Witness for C10: limit 3, namespace `metering.`, reserved key
`metering.a.b` with value `"hello"`: the user metadata holds `a_b` mapped to
the truncated `"hel"`, nested under `user_metadata`. -/
theorem c10_reserved_user_metadata_witness :
    (("metering.a.b", MetaVal.str "hello") ∈ instMeta1.metadata) ∧
    py_startswith "metering.a.b" "metering." = true ∧
    alMem md1 (transform_key "metering." "metering.a.b") = false ∧
    alLookup (_add_reserved_user_metadata ⟨["metering."], 3⟩ instMeta1 md1)
        "user_metadata" =
      some (.map (reserved_user_metadata 3 ["metering."] instMeta1.metadata md1)) ∧
    alLookup (reserved_user_metadata 3 ["metering."] instMeta1.metadata md1)
        "a_b" = some (.str "hel") := by
  have h := c10_reserved_user_metadata 3 "metering." md1 instMeta1
    "metering.a.b" (.str "hello") (List.mem_singleton.mpr rfl) rfl
  exact ⟨List.mem_singleton.mpr rfl, rfl, rfl, h.2.1 rfl, rfl⟩
